import Mathlib

/-!
# Prec-pearl escalation lifecycle — shallow embedding

Shallow embedding of the escalation/report/RCA lifecycle logic of the
Prec-pearl dashboard, translated from:

* `src/unnamed/part_000`  — `useMTTRAlert` (70% MTTR breach detection hook)
* `src/unnamed/part_001`  — `CloseLink.tsx` (`handleSubmit`: RCA upsert, MTTR
  computation, bulk report closing)
* `src/src/pages/staff/CreateReportPage.tsx` — `fetchEscalations`,
  `handleSubmitReport`
* `src/src/pages/staff/ResolvedPage.tsx` — `handleResolveReport`
* `src/src/components/escalation/EscalationForm.tsx` — `generateIds`,
  `handleSubmit`
* `src/src/pages/escalations/EditEscalation.tsx` — escalation edit
* `src/unnamed/part_002` — `handleDelete` (escalation + reports delete)
* `src/supabase/migrations/20250804104513_….sql` — the constraints the
  claims cite: `CHECK (mttr_hours >= 0.1)` on `escalations`, the `UNIQUE`
  constraint on `rca_forms.escalation_id`, and primary-key uniqueness.

Conventions: timestamps are epoch milliseconds (`Int`), JS `number`
arithmetic is modelled over `ℚ`, nullable columns are `Option`, and status
columns are the literal strings the code compares against.
-/

set_option maxRecDepth 4000
set_option maxHeartbeats 1000000

namespace PrecPearl

/-- `escalations` row (the columns the core logic reads or writes).
`mttr_hours` is `DECIMAL NOT NULL` hence non-optional here. -/
structure Escalation where
  id : String
  provider : String
  site_a_id : Option String := none
  site_b_id : Option String := none
  list_of_segment : Option String := none
  link_id : Option String := none
  ticket_id : String
  mttr_hours : ℚ
  status : String
  has_report : Bool
  description : Option String := none
  cof : Option String := none
  pof : Option String := none
  created_by : Option String := none
  regional_manager_id : Option String := none
  team_lead_id : Option String := none
  created_at : Int
  updated_at : Int
deriving DecidableEq, Repr

/-- `reports` row. -/
structure Report where
  id : Nat
  escalation_id : Option String
  issue_description : String
  reported_by : String
  contact_info : String
  is_critical : Bool := false
  image_url : Option String := none
  status : String
  status_notes : Option String := none
  resolution_notes : Option String := none
  resolution_photos : Option (List String) := none
  created_by : Option String := none
  created_at : Int
  updated_at : Int
deriving DecidableEq, Repr

/-- `rca_forms` row. -/
structure RcaForm where
  id : Nat
  escalation_id : Option String
  link_type : String
  start_time : Option Int
  end_time : Option Int
  mttr_used : Int
  mttr_status : String
  cof : Option String := none
  pof : Option String := none
  actual_cof : String
  detailed_cof : String
  resolution : String
  ofc : Option String := none
  jc : Option String := none
  cod : Option String := none
  team_lead : Option String := none
  team_manager : Option String := none
  bottle_cassette_tray : Option String := none
  segment : Option String := none
  time_to_pof : Option ℚ := none
  time_to_test : Option ℚ := none
  tt_number : Option String := none
  created_at : Int
  updated_at : Int
deriving DecidableEq, Repr

/-- `notification_log` row (append-only). The breach hook writes only
`escalation_id`/`message`/`recipient_id`; the resolution path fills the
rest, so the extra columns default to `none`. -/
structure NotificationLog where
  escalation_id : Option String
  message : String
  recipient_id : Option String
  ticket_id : Option String := none
  provider : Option String := none
  site_a_id : Option String := none
  site_b_id : Option String := none
  link_id : Option String := none
  mttr_hours : Option ℚ := none
  cof : Option String := none
  pof : Option String := none
  resolution_notes : Option String := none
  resolution_photos : Option (List String) := none
  resolved_at : Option Int := none
  is_read : Option Bool := none
  created_at : Option Int := none
deriving DecidableEq, Repr

/-- The persistent store: the four tables the lifecycle engine touches. -/
structure DB where
  escalations : List Escalation := []
  reports : List Report := []
  rca_forms : List RcaForm := []
  notification_log : List NotificationLog := []
deriving DecidableEq, Repr

/-- JS `a || d` on a nullable string: `null`/`undefined` and `""` are falsy. -/
def jsOrElse (o : Option String) (d : String) : String :=
  match o with
  | none => d
  | some s => if s = "" then d else s

/-- JS `a || 'system'` on a nullable string. -/
def jsOrSystem (o : Option String) : String := jsOrElse o "system"

/-- JS `s || null` on a string: the empty string becomes `null`. -/
def jsOrNull (s : String) : Option String :=
  if s = "" then none else some s

/-- JS `a ?? b` on two nullable strings (nullish coalescing: only
`null`/`undefined` fall through, the empty string does not). -/
def jsCoalesce (a b : Option String) : Option String :=
  match a with
  | some s => some s
  | none => b

/-- JS `String.prototype.trim()`: strip leading and trailing whitespace
(modelled structurally over the character list). -/
def jsTrim (s : String) : String :=
  String.mk (((s.data.dropWhile Char.isWhitespace).reverse.dropWhile Char.isWhitespace).reverse)

namespace MTTRAlert

/-! `useMTTRAlert` / `checkMTTRBreaches`, `src/unnamed/part_000` lines 8–48. -/

/-- The message the dedup query filters on (line 28):
`.eq('message', 'MTTR 70% threshold breach')`. -/
def dedupMessage : String := "MTTR 70% threshold breach"

/-- The message actually inserted (line 35):
`` `MTTR 70% threshold breach - Ticket ${escalation.ticket_id}` ``. -/
def insertedMessage (e : Escalation) : String :=
  "MTTR 70% threshold breach - Ticket " ++ e.ticket_id

/-- `elapsedHours >= thresholdHours` with
`elapsedHours = (now - createdAt) / (1000*60*60)` and
`thresholdHours = mttr_hours * 0.7` (lines 17–20). -/
def isBreached (now : Int) (e : Escalation) : Bool :=
  decide ((((now : ℚ) - (e.created_at : ℚ)) / (1000 * 60 * 60)) ≥ e.mttr_hours * 0.7)

/-- The `.single()` dedup lookup (lines 24–29): `data` is non-null exactly
when exactly one row matches both filters. -/
def existingLog (log : List NotificationLog) (e : Escalation) : Bool :=
  (log.filter (fun n => n.escalation_id == some e.id && n.message == dedupMessage)).length == 1

/-- The notification row inserted on a breach (lines 33–37). -/
def breachRow (e : Escalation) : NotificationLog :=
  { escalation_id := some e.id
    message := insertedMessage e
    recipient_id := some (jsOrSystem e.created_by) }

/-- One iteration of the `for` loop in `checkMTTRBreaches` (lines 13–40):
skip resolved/closed, otherwise flag urgent and conditionally insert. -/
def checkStep (now : Int) (acc : List String × List NotificationLog) (e : Escalation) :
    List String × List NotificationLog :=
  if e.status == "resolved" || e.status == "closed" then acc
  else if isBreached now e then
    (acc.1 ++ [e.id],
     if existingLog acc.2 e then acc.2 else acc.2 ++ [breachRow e])
  else acc

/-- `checkMTTRBreaches` (lines 9–43): returns the urgent id set (as the
ordered list the `Set` was built from) and the notification log after the
pass. -/
def checkMTTRBreaches (escalations : List Escalation) (log : List NotificationLog)
    (now : Int) : List String × List NotificationLog :=
  escalations.foldl (checkStep now) ([], log)

end MTTRAlert

namespace CloseLink

/-! `CloseLink.tsx` (`src/unnamed/part_001` lines 1219–2795): RCA submit with
MTTR computation, upsert by `escalation_id`, and bulk report closing. -/

/-- `CloseLinkFormData` (lines 1258–1282). `start_time`/`end_time` are text
inputs consumed through `parseISO`; they are abstracted by their parse
(`none` for the empty string or an unparseable value, in which case the
source leaves `computedMinutes = 0`). `time_to_pof`/`time_to_test` are text
inputs consumed through `parseFloat` and abstracted the same way. -/
structure CloseLinkFormData where
  link_type : String := "BB"
  start_time : Option Int := none
  end_time : Option Int := none
  mttr_used : Int := 0
  mttr_status : String := "Within MTTR"
  pof : String := ""
  cof : String := ""
  cof_custom : String := ""
  actual_cof : String := "Fibre"
  detailed_cof : String := ""
  resolution : String := ""
  ofc : String := ""
  jc : String := ""
  cod : String := ""
  cod_custom : String := ""
  team_lead : String := ""
  team_manager : String := ""
  bottle_cassette_tray : String := ""
  segment : String := ""
  time_to_pof : Option ℚ := none
  time_to_test : Option ℚ := none
  tt_number : String := ""
deriving DecidableEq, Repr

/-- date-fns `differenceInMinutes(end, start)`: the millisecond difference
divided by 60000 and truncated toward zero. -/
def differenceInMinutes (laterDate earlierDate : Int) : Int :=
  Int.tdiv (laterDate - earlierDate) 60000

/-- `computedMinutes` (lines 1867–1876): `Math.max(0, differenceInMinutes)`
when both timestamps are present and parseable, `0` otherwise. -/
def computedMinutes (fd : CloseLinkFormData) : Int :=
  match fd.start_time, fd.end_time with
  | some s, some e => max 0 (differenceInMinutes e s)
  | _, _ => 0

/-- The RCA `payload` object (lines 1885–1910). `id` and `created_at` are
not part of the payload; the update branch keeps the existing row's values
and the insert branch supplies a fresh id and `created_at = now`.
`escalation.mttr_hours ?? 3` collapses to `mttr_hours` because the column
is `NOT NULL`. -/
def payload (fd : CloseLinkFormData) (esc : Escalation) (now : Int)
    (id : Nat) (created_at : Int) : RcaForm :=
  let m := computedMinutes fd
  { id := id
    escalation_id := some esc.id
    link_type := fd.link_type
    start_time := fd.start_time
    end_time := fd.end_time
    mttr_used := Int.fdiv m 60
    mttr_status := if (m : ℚ) > esc.mttr_hours * 60 then "Exceeded MTTR" else "Within MTTR"
    cof := if fd.cof = "Others" then jsOrNull fd.cof_custom else jsOrNull fd.cof
    pof := jsOrNull fd.pof
    actual_cof := fd.actual_cof
    detailed_cof := fd.detailed_cof
    resolution := fd.resolution
    ofc := jsOrNull fd.ofc
    jc := jsOrNull fd.jc
    cod := if fd.cod = "Others" then jsOrNull fd.cod_custom else jsOrNull fd.cod
    team_lead := some fd.team_lead
    team_manager := some fd.team_manager
    bottle_cassette_tray := some fd.bottle_cassette_tray
    segment := some fd.segment
    time_to_pof := fd.time_to_pof
    time_to_test := fd.time_to_test
    tt_number := some fd.tt_number
    created_at := created_at
    updated_at := now }

/-- PostgREST `.maybeSingle()`: `none` for no row, the row when unique, an
error when several rows match (the source then throws and aborts). -/
def maybeSingle (rows : List RcaForm) (escId : String) : Except Unit (Option RcaForm) :=
  match rows.filter (fun r => r.escalation_id == some escId) with
  | [] => Except.ok none
  | [r] => Except.ok (some r)
  | _ => Except.error ()

/-- The bulk report close (lines 1950–1956): every report of the escalation
gets `status = "closed"` and a fresh `updated_at`. -/
def closeReports (db : DB) (escId : String) (now : Int) : DB :=
  { db with reports := db.reports.map (fun r =>
      if r.escalation_id == some escId then
        { r with status := "closed", updated_at := now } else r) }

/-- `handleSubmit` (lines 1852–1974). Returns `none` on a validation
failure or a thrown persistence error (no state change is modelled for the
partial-failure paths the claims do not touch), and
`some (db, savedRca)` on success. -/
def handleSubmit (fd : CloseLinkFormData) (escalation : Option Escalation)
    (db : DB) (now : Int) (freshId : Nat) : Option (DB × RcaForm) :=
  if fd.actual_cof = "" || jsTrim fd.detailed_cof = "" || jsTrim fd.resolution = "" then none
  else
    match escalation with
    | none => none
    | some esc =>
      match maybeSingle db.rca_forms esc.id with
      | Except.error _ => none
      | Except.ok (some existingRca) =>
        let saved := payload fd esc now existingRca.id existingRca.created_at
        let newForms := db.rca_forms.map (fun r => if r.id = existingRca.id then saved else r)
        let db1 := { db with rca_forms := newForms }
        some (closeReports db1 esc.id now, saved)
      | Except.ok none =>
        let saved := payload fd esc now freshId now
        let db1 := { db with rca_forms := db.rca_forms ++ [saved] }
        some (closeReports db1 esc.id now, saved)

end CloseLink

namespace CreateReport

/-! `CreateReportPage.tsx`: candidate fetch and report submit. -/

/-- One insertion step of `ORDER BY created_at DESC` (newest first). -/
def insertByCreatedDesc (e : Escalation) : List Escalation → List Escalation
  | [] => [e]
  | x :: xs => if x.created_at ≤ e.created_at then e :: x :: xs else x :: insertByCreatedDesc e xs

/-- `ORDER BY created_at DESC`, as a structurally recursive insertion sort. -/
def sortByCreatedDesc (l : List Escalation) : List Escalation :=
  l.foldr insertByCreatedDesc []

/-- `fetchEscalations` (lines 57–78): escalations with `has_report = false`,
newest first. -/
def fetchEscalations (db : DB) : List Escalation :=
  sortByCreatedDesc (db.escalations.filter (fun e => e.has_report == false))

/-- The form state of `CreateReportPage`. -/
structure ReportFormData where
  issue_description : String := ""
  reported_by : String := ""
  contact_info : String := ""
  is_critical : Bool := false
deriving DecidableEq, Repr

/-- The report `payload` (lines 192–203). -/
def reportPayload (fd : ReportFormData) (esc : Escalation) (uploadedUrls : List String)
    (profileId : Option String) (now : Int) (freshId : Nat) : Report :=
  { id := freshId
    escalation_id := some esc.id
    issue_description := fd.issue_description
    reported_by := fd.reported_by
    contact_info := fd.contact_info
    is_critical := fd.is_critical
    resolution_photos := if uploadedUrls.length = 0 then none else some uploadedUrls
    image_url := uploadedUrls.head?
    status := "in_progress"
    created_by := profileId
    created_at := now
    updated_at := now }

/-- `handleSubmitReport` (lines 170–249): validate the three required text
fields, insert one report row, then flip the parent escalation to
`has_report = true`, `status = "in_progress"`. `none` models the early
validation return (no write). -/
def handleSubmitReport (fd : ReportFormData) (esc : Escalation)
    (uploadedUrls : List String) (profileId : Option String)
    (db : DB) (now : Int) (freshId : Nat) : Option DB :=
  if jsTrim fd.issue_description = "" || jsTrim fd.reported_by = ""
      || jsTrim fd.contact_info = "" then none
  else
    some { db with
      reports := db.reports ++ [reportPayload fd esc uploadedUrls profileId now freshId]
      escalations := db.escalations.map (fun e =>
        if e.id = esc.id then { e with has_report := true, status := "in_progress" } else e) }

end CreateReport

namespace ResolvedPage

/-! `ResolvedPage.tsx`: `handleResolveReport` (lines 144–223). -/

/-- The resolution drawer state: the three text fields plus the selected
image files (by name). -/
structure ResolutionData where
  resolution_notes : String := ""
  cof : String := ""
  pof : String := ""
  selectedImages : List String := []
deriving DecidableEq, Repr

/-- `uploadImagesToSupabase` (lines 118–141): the object store is an
external collaborator; each file lands under
`report_upload/resolved/{linkId}/{Date.now()}_{name}` and the public URL of
that path is returned, one per file. -/
def uploadImagesToSupabase (now : Int) (files : List String) (linkId : String) : List String :=
  files.map (fun name => "report_upload/resolved/" ++ linkId ++ "/" ++ toString now ++ "_" ++ name)

/-- The notification row built at lines 186–204. -/
def notificationOf (rd : ResolutionData) (report : Report) (escJoined : Option Escalation)
    (urls : List String) (now : Int) : NotificationLog :=
  { escalation_id := report.escalation_id
    ticket_id := escJoined.map (fun e => e.ticket_id)
    provider := escJoined.map (fun e => e.provider)
    site_a_id := escJoined.bind (fun e => e.site_a_id)
    site_b_id := escJoined.bind (fun e => e.site_b_id)
    link_id := escJoined.bind (fun e => e.link_id)
    mttr_hours := escJoined.map (fun e => e.mttr_hours)
    cof := some rd.cof
    pof := some rd.pof
    resolution_notes := some rd.resolution_notes
    resolution_photos := some urls
    resolved_at := some now
    recipient_id := escJoined.bind (fun e => e.created_by)
    message := "Ticket " ++
      (match escJoined with
       | some e => e.ticket_id
       | none => match report.escalation_id with
                 | some s => s
                 | none => "null") ++
      " resolved — COF: " ++ rd.cof ++ ", POF: " ++ rd.pof
    is_read := some false
    created_at := some now }

/-- `handleResolveReport` (lines 144–223): validate notes/cof/pof and at
least one image; update the report row, update the escalation row keyed on
`report.escalation_id` (a `null` key matches no row), and append exactly
one notification-log entry. `none` models the early validation returns. -/
def handleResolveReport (rd : ResolutionData) (report : Report)
    (escJoined : Option Escalation) (db : DB) (now : Int) : Option DB :=
  if jsTrim rd.resolution_notes = "" || jsTrim rd.cof = "" || jsTrim rd.pof = "" then none
  else if rd.selectedImages.length = 0 then none
  else
    let linkId := jsOrElse (escJoined.bind (fun e => e.link_id)) (toString report.id)
    let urls := uploadImagesToSupabase now rd.selectedImages linkId
    let reports1 := db.reports.map (fun r =>
      if r.id = report.id then
        { r with status := "resolved"
                 resolution_notes := some rd.resolution_notes
                 resolution_photos := some urls
                 updated_at := now }
      else r)
    let escalations1 :=
      match report.escalation_id with
      | none => db.escalations
      | some eid => db.escalations.map (fun e =>
          if e.id = eid then
            { e with status := "resolved"
                     cof := some rd.cof
                     pof := some rd.pof
                     updated_at := now }
          else e)
    some { db with
      reports := reports1
      escalations := escalations1
      notification_log := db.notification_log ++ [notificationOf rd report escJoined urls now] }

end ResolvedPage

namespace EscalationForm

/-! `EscalationForm.tsx`: `generateIds` (lines 275–286) and `handleSubmit`
(lines 288–386), plus the store-side constraints of the `escalations`
table that the claims cite (`CHECK (mttr_hours >= 0.1)`, `NOT NULL`,
primary-key uniqueness). -/

/-- A site row as the form consumes it (all lookups are defensive). -/
structure Site where
  id : Option String := none
  site_id : Option String := none
  site_name : Option String := none
  list_of_segment : Option String := none
deriving DecidableEq, Repr

/-- The MTTR text input abstracted by its JS semantics: `isEmpty` is the
`!formData.mttrHours` truthiness test and `parsed` is the `parseFloat`
result (`none` when it returns `NaN`; note `NaN < 0.1` is `false`). -/
structure MttrInput where
  isEmpty : Bool := false
  parsed : Option ℚ := none
deriving DecidableEq, Repr

/-- The form state plus the identity `{ id, role }` the component consumes. -/
structure EscFormState where
  provider : String
  siteA : Option Site := none
  siteB : Option Site := none
  mttrHours : MttrInput := {}
  description : String := ""
  role : String := "staff"
  profileId : String := "user-1"
  selectedRegionalManager : String := ""
  selectedTeamLead : String := ""
deriving DecidableEq, Repr

/-- `Math.random().toString(36)` prints `"0"`, or `"0."` followed by the
fractional base-36 digits (lowercase, no trailing zero) of the random
double; `substring(2, 8)` keeps the first six of those digits, possibly
fewer when the expansion is short (`Math.random() = 0.5` prints `"0.i"`).
The random source is abstracted by that digit list. -/
def ticketIdOf (digits : List Char) : String :=
  "TCK-" ++ String.mk ((digits.take 6).map Char.toUpper)

/-- `(site?.id ?? site?.site_id)?.toString()` — the key compared between
site A and site B and stored into `site_a_id`/`site_b_id`. -/
def siteKey (s : Option Site) : Option String :=
  s.bind (fun a => jsCoalesce a.id a.site_id)

/-- `generateIds` (lines 275–286): `none` models the thrown `Error` when
the required site selection is missing. -/
def generateIds (provider : String) (siteA siteB : Option Site) (digits : List Char) :
    Option (String × String) :=
  let ticketId := ticketIdOf digits
  if provider = "mtn" then
    match siteA with
    | none => none
    | some a => some ((jsCoalesce a.list_of_segment a.site_id).getD "", ticketId)
  else
    match siteA, siteB with
    | some a, some b => some ((a.site_name.getD "undefined") ++ "-" ++ (b.site_name.getD "undefined"), ticketId)
    | _, _ => none

/-- The insert payload (lines 327–347): what the client hands to
`supabase.from("escalations").insert(...)`. `mttr_hours` is the raw
`parseFloat` result (`none` = `NaN`, which serializes to `null`). -/
structure EscalationInsert where
  provider : String
  ticket_id : String
  mttr_hours : Option ℚ
  status : String
  description : String
  created_by : String
  list_of_segment : Option String := none
  link_id : Option String := none
  site_a_id : Option String := none
  site_b_id : Option String := none
  regional_manager_id : Option String := none
  team_lead_id : Option String := none
deriving DecidableEq, Repr

/-- Store-side insert, enforcing the schema constraints the claims cite:
primary-key uniqueness, `mttr_hours` `NOT NULL`, and
`CHECK (mttr_hours >= 0.1)`
(`src/supabase/migrations/20250804104513_….sql` line 72). Returns the
stored row; `status` and `has_report` default per the payload and schema. -/
def dbInsertEscalation (db : DB) (p : EscalationInsert) (newId : String) (now : Int) :
    Option (DB × Escalation) :=
  if db.escalations.any (fun e => e.id = newId) then none
  else
    match p.mttr_hours with
    | none => none
    | some q =>
      if q < 0.1 then none
      else
        let row : Escalation :=
          { id := newId
            provider := p.provider
            site_a_id := p.site_a_id
            site_b_id := p.site_b_id
            list_of_segment := p.list_of_segment
            link_id := p.link_id
            ticket_id := p.ticket_id
            mttr_hours := q
            status := p.status
            has_report := false
            description := some p.description
            created_by := some p.created_by
            regional_manager_id := p.regional_manager_id
            team_lead_id := p.team_lead_id
            created_at := now
            updated_at := now }
        some ({ db with escalations := db.escalations ++ [row] }, row)

/-- The outcome of one submit attempt, distinguishing the client-side early
returns (no persistence call) from a thrown persistence failure. -/
inductive SubmitOutcome where
  | validationError
  | insertFailed
  | ok (db : DB) (row : Escalation)
deriving DecidableEq, Repr

/-- `handleSubmit` (lines 288–386), validations in source order:
missing site/segment, missing MTTR text or description; missing
fibre-network assignments; `parseFloat(mttrHours) < 0.1`; equal site keys
for non-mtn. Only then `generateIds` runs and the single insert is
attempted. The source fills the payload in two provider-dependent blocks;
that is rendered field-wise here (a field set only in the mtn block is
`none` otherwise, and vice versa). -/
def handleSubmit (fs : EscFormState) (digits : List Char) (newId : String)
    (now : Int) (db : DB) : SubmitOutcome :=
  let isMTN := fs.provider = "mtn"
  if (isMTN && fs.siteA.isNone) || (!isMTN && (fs.siteA.isNone || fs.siteB.isNone))
      || fs.mttrHours.isEmpty || fs.description = "" then .validationError
  else if fs.role = "fibre_network"
      && (fs.selectedRegionalManager = "" || fs.selectedTeamLead = "") then .validationError
  else if (match fs.mttrHours.parsed with
           | some q => decide (q < 0.1)
           | none => false) then .validationError
  else if !isMTN && siteKey fs.siteA == siteKey fs.siteB then .validationError
  else
    match generateIds fs.provider fs.siteA fs.siteB digits with
    | none => .insertFailed
    | some (linkId, ticketId) =>
      let p : EscalationInsert :=
        { provider := fs.provider
          ticket_id := ticketId
          mttr_hours := fs.mttrHours.parsed
          status := "pending"
          description := fs.description
          created_by := fs.profileId
          list_of_segment :=
            if isMTN then fs.siteA.bind (fun a => jsCoalesce a.list_of_segment a.site_id)
            else none
          link_id := if isMTN then jsOrNull linkId else some linkId
          site_a_id := if isMTN then none else siteKey fs.siteA
          site_b_id := if isMTN then none else siteKey fs.siteB
          regional_manager_id :=
            if fs.role = "fibre_network" then jsOrNull fs.selectedRegionalManager else none
          team_lead_id :=
            if fs.role = "fibre_network" then jsOrNull fs.selectedTeamLead else none }
      match dbInsertEscalation db p newId now with
      | none => .insertFailed
      | some (db1, row) => .ok db1 row

end EscalationForm

namespace EditEscalation

/-! `EditEscalation.tsx` `handleSubmit` (lines 78–120): update
`mttr_hours`/`updated_at` of one escalation, after the same client-side
MTTR validation. A `NaN` parse serializes to `null` and the `NOT NULL`
column rejects the update, leaving the row unchanged. -/

def handleSubmit (escId : String) (mttrHours : EscalationForm.MttrInput)
    (now : Int) (db : DB) : DB :=
  if mttrHours.isEmpty
      || (match mttrHours.parsed with
          | some q => decide (q < 0.1)
          | none => false) then db
  else
    match mttrHours.parsed with
    | none => db
    | some q =>
      if q < 0.1 then db
      else
        { db with escalations := db.escalations.map (fun e =>
            if e.id = escId then { e with mttr_hours := q, updated_at := now } else e) }

end EditEscalation

namespace AdminTable

/-! `src/unnamed/part_002` `handleDelete` (lines 169–178): delete the
escalation's reports, then the escalation itself. -/

def handleDelete (escId : String) (db : DB) : DB :=
  { db with
    reports := db.reports.filter (fun r => !(r.escalation_id == some escId))
    escalations := db.escalations.filter (fun e => !(e.id == escId)) }

end AdminTable

namespace InProgress

/-! `InProgressForm.tsx` `handleSubmit` (lines 60–95): requires a non-empty
ETR text and 1–3 images, then writes `status_notes`/`updated_at` on the
report (status unchanged). -/

def handleSubmit (reportId : Nat) (etr : String) (images : List String)
    (now : Int) (db : DB) : DB :=
  if jsTrim etr = "" then db
  else if images.length = 0 then db
  else
    { db with reports := db.reports.map (fun r =>
        if r.id = reportId then { r with status_notes := some etr, updated_at := now } else r) }

end InProgress

/-- Every operation in the repository that can touch the persistent store
(the escalation lifecycle surface: creation, edit, report stages, RCA
submit, breach pass, delete). -/
inductive Op where
  | createEscalation (fs : EscalationForm.EscFormState) (digits : List Char)
      (newId : String) (now : Int)
  | editEscalation (escId : String) (mttr : EscalationForm.MttrInput) (now : Int)
  | createReport (fd : CreateReport.ReportFormData) (esc : Escalation)
      (urls : List String) (profileId : Option String) (now : Int) (freshId : Nat)
  | inProgressUpdate (reportId : Nat) (etr : String) (images : List String) (now : Int)
  | resolveReport (rd : ResolvedPage.ResolutionData) (report : Report)
      (escJoined : Option Escalation) (now : Int)
  | submitRca (fd : CloseLink.CloseLinkFormData) (escalation : Option Escalation)
      (now : Int) (freshId : Nat)
  | breachCheck (now : Int)
  | deleteEscalation (escId : String)

/-- The store after one operation (aborted operations leave it unchanged). -/
def step (op : Op) (db : DB) : DB :=
  match op with
  | .createEscalation fs digits newId now =>
    match EscalationForm.handleSubmit fs digits newId now db with
    | .ok db1 _ => db1
    | _ => db
  | .editEscalation escId mttr now => EditEscalation.handleSubmit escId mttr now db
  | .createReport fd esc urls pid now fid =>
    (CreateReport.handleSubmitReport fd esc urls pid db now fid).getD db
  | .inProgressUpdate rid etr imgs now => InProgress.handleSubmit rid etr imgs now db
  | .resolveReport rd rep escJ now => (ResolvedPage.handleResolveReport rd rep escJ db now).getD db
  | .submitRca fd esc now fid =>
    match CloseLink.handleSubmit fd esc db now fid with
    | some (db1, _) => db1
    | none => db
  | .breachCheck now =>
    { db with notification_log :=
        (MTTRAlert.checkMTTRBreaches db.escalations db.notification_log now).2 }
  | .deleteEscalation escId => AdminTable.handleDelete escId db

/-- Whether an operation is the report-creation submit against the given
escalation (the only write that touches `has_report`). -/
def Op.isCreateReportFor (op : Op) (escId : String) : Bool :=
  match op with
  | .createReport _ esc _ _ _ _ => esc.id == escId
  | _ => false

/-! ## Sample data shared by the witnesses -/

/-- A pending escalation with a 10-hour MTTR budget created at epoch 0. -/
def sampleBreachEsc : Escalation :=
  { id := "esc-1"
    provider := "mtn"
    ticket_id := "TCK-AB12CD"
    mttr_hours := 10
    status := "pending"
    has_report := false
    created_by := some "user-1"
    created_at := 0
    updated_at := 0 }

/-- A resolved escalation with the same budget. -/
def sampleResolvedEsc : Escalation :=
  { sampleBreachEsc with id := "esc-2", ticket_id := "TCK-ZZ99ZZ", status := "resolved" }

/-- 8 hours, in epoch milliseconds. -/
def t8h : Int := 8 * 3600000

/-! ## Claims about the breach-detection pass -/

/-- The urgent ids produced by the breach fold: an id is collected exactly
when some escalation of the working set that is neither resolved nor closed
is breached and carries it (or it was in the accumulator already). -/
theorem MTTRAlert.mem_foldl_urgent (now : Int) (es : List Escalation)
    (acc : List String × List NotificationLog) (x : String) :
    x ∈ (es.foldl (MTTRAlert.checkStep now) acc).1 ↔
      x ∈ acc.1 ∨ ∃ e ∈ es, ¬(e.status = "resolved" ∨ e.status = "closed") ∧
        MTTRAlert.isBreached now e = true ∧ e.id = x := by
  induction es generalizing acc with
  | nil => simp
  | cons e es ih =>
    rw [List.foldl_cons]
    have hstep : MTTRAlert.checkStep now acc e =
        if e.status == "resolved" || e.status == "closed" then acc
        else if MTTRAlert.isBreached now e then
          (acc.1 ++ [e.id],
           if MTTRAlert.existingLog acc.2 e then acc.2
           else acc.2 ++ [MTTRAlert.breachRow e])
        else acc := rfl
    cases hst : (e.status == "resolved" || e.status == "closed") with
    | true =>
      have h1 : e.status = "resolved" ∨ e.status = "closed" := by simpa using hst
      simp only [hstep, hst, if_true, ih]
      constructor
      · rintro (hx | ⟨e', he', h⟩)
        · exact Or.inl hx
        · exact Or.inr ⟨e', List.mem_cons_of_mem _ he', h⟩
      · rintro (hx | ⟨e', he', hcond, hrest⟩)
        · exact Or.inl hx
        · rcases List.mem_cons.mp he' with rfl | hmem
          · exact absurd h1 hcond
          · exact Or.inr ⟨e', hmem, hcond, hrest⟩
    | false =>
      have h1 : ¬(e.status = "resolved" ∨ e.status = "closed") := by
        simp only [Bool.or_eq_false_iff, beq_eq_false_iff_ne, ne_eq] at hst
        rintro (h | h)
        · exact hst.1 h
        · exact hst.2 h
      cases hbr : MTTRAlert.isBreached now e with
      | true =>
        simp only [hstep, hst, hbr, Bool.false_eq_true, if_false, if_true, ih]
        constructor
        · rintro (hx | ⟨e', he', h⟩)
          · rcases List.mem_append.mp hx with hx | hx
            · exact Or.inl hx
            · exact Or.inr ⟨e, List.mem_cons_self _ _, h1, hbr,
                (List.mem_singleton.mp hx).symm⟩
          · exact Or.inr ⟨e', List.mem_cons_of_mem _ he', h⟩
        · rintro (hx | ⟨e', he', hcond, hbr', hid⟩)
          · exact Or.inl (List.mem_append.mpr (Or.inl hx))
          · rcases List.mem_cons.mp he' with rfl | hmem
            · exact Or.inl (List.mem_append.mpr (Or.inr (List.mem_singleton.mpr hid.symm)))
            · exact Or.inr ⟨e', hmem, hcond, hbr', hid⟩
      | false =>
        simp only [hstep, hst, hbr, Bool.false_eq_true, if_false, ih]
        constructor
        · rintro (hx | ⟨e', he', h⟩)
          · exact Or.inl hx
          · exact Or.inr ⟨e', List.mem_cons_of_mem _ he', h⟩
        · rintro (hx | ⟨e', he', hcond, hbr', hid⟩)
          · exact Or.inl hx
          · rcases List.mem_cons.mp he' with rfl | hmem
            · exact absurd hbr' (by simp [hbr])
            · exact Or.inr ⟨e', hmem, hcond, hbr', hid⟩

/-- C2: in one breach-detection pass over a working set with distinct ids,
an escalation that is neither resolved nor closed is marked urgent exactly
when `(now - created_at)` in hours is at least `mttr_hours * 0.7`, and a
resolved or closed escalation is never marked urgent. -/
theorem C2_breach_marking (escalations : List Escalation) (log : List NotificationLog)
    (now : Int) (hnodup : (escalations.map (fun e => e.id)).Nodup)
    (e : Escalation) (he : e ∈ escalations) :
    (¬(e.status = "resolved" ∨ e.status = "closed") →
      (e.id ∈ (MTTRAlert.checkMTTRBreaches escalations log now).1 ↔
        ((now : ℚ) - (e.created_at : ℚ)) / (1000 * 60 * 60) ≥ e.mttr_hours * 0.7)) ∧
    ((e.status = "resolved" ∨ e.status = "closed") →
      e.id ∉ (MTTRAlert.checkMTTRBreaches escalations log now).1) := by
  have hinj := List.inj_on_of_nodup_map hnodup
  constructor
  · intro hst
    rw [MTTRAlert.checkMTTRBreaches, MTTRAlert.mem_foldl_urgent]
    simp only [List.not_mem_nil, false_or]
    constructor
    · rintro ⟨e', he', hst', hbr, hid⟩
      have : e' = e := hinj he' he hid
      subst this
      exact of_decide_eq_true hbr
    · intro h
      exact ⟨e, he, hst, decide_eq_true h, rfl⟩
  · intro hst hmem
    rw [MTTRAlert.checkMTTRBreaches, MTTRAlert.mem_foldl_urgent] at hmem
    simp only [List.not_mem_nil, false_or] at hmem
    obtain ⟨e', he', hst', _, hid⟩ := hmem
    exact hst' (by rw [hinj he' he hid] at hst'; exact absurd hst hst')

set_option maxHeartbeats 2000000 in
/-- Witness for C2: with a 10-hour budget and 8 elapsed hours the pending
escalation is flagged (8 ≥ 7) and the resolved one is not. -/
theorem C2_breach_marking_witness :
    "esc-1" ∈ (MTTRAlert.checkMTTRBreaches [sampleBreachEsc, sampleResolvedEsc] [] t8h).1 ∧
    "esc-2" ∉ (MTTRAlert.checkMTTRBreaches [sampleBreachEsc, sampleResolvedEsc] [] t8h).1 := by
  constructor
  · exact ((C2_breach_marking [sampleBreachEsc, sampleResolvedEsc] [] t8h
      (by with_unfolding_all decide) sampleBreachEsc (by with_unfolding_all decide)).1
      (by with_unfolding_all decide)).mpr (by with_unfolding_all decide)
  · exact (C2_breach_marking [sampleBreachEsc, sampleResolvedEsc] [] t8h
      (by with_unfolding_all decide) sampleResolvedEsc (by with_unfolding_all decide)).2
      (by with_unfolding_all decide)

/-- C7 (code bug): the dedup lookup filters on
`'MTTR 70% threshold breach'` while the insert writes
`` `MTTR 70% threshold breach - Ticket ${ticket_id}` ``, so the check never
matches and each pass appends a fresh breach row: after two passes over the
same breached escalation the log holds two entries, not at most one. -/
theorem C7_breach_insert_not_idempotent :
    MTTRAlert.dedupMessage ≠ MTTRAlert.insertedMessage sampleBreachEsc ∧
    (MTTRAlert.checkMTTRBreaches [sampleBreachEsc] [] t8h).2.length = 1 ∧
    (MTTRAlert.checkMTTRBreaches [sampleBreachEsc]
      (MTTRAlert.checkMTTRBreaches [sampleBreachEsc] [] t8h).2 t8h).2.length = 2 := by
  with_unfolding_all decide

/-! ## Claims about the RCA submit (`CloseLink.handleSubmit`) -/

/-- Number of RCA rows stored for an escalation. -/
def rcaCount (db : DB) (escId : String) : Nat :=
  (db.rca_forms.filter (fun r => r.escalation_id == some escId)).length

/-- A resolved escalation with a 3-hour MTTR budget, awaiting its RCA. -/
def sampleRcaEsc : Escalation :=
  { id := "esc-3"
    provider := "airtel"
    site_a_id := some "A"
    site_b_id := some "B"
    link_id := some "A-B"
    ticket_id := "TCK-RCA001"
    mttr_hours := 3
    status := "resolved"
    has_report := true
    created_by := some "user-2"
    created_at := 0
    updated_at := 0 }

/-- The resolved report under `sampleRcaEsc`. -/
def sampleReport : Report :=
  { id := 7
    escalation_id := some "esc-3"
    issue_description := "fiber cut"
    reported_by := "Ops"
    contact_info := "0800-000"
    status := "resolved"
    created_at := 0
    updated_at := 0 }

/-- The store before the RCA submit. -/
def sampleRcaDb : DB := { escalations := [sampleRcaEsc], reports := [sampleReport] }

/-- The RCA form: outage window 00:00 → 05:30 (330 minutes). -/
def sampleRcaFd : CloseLink.CloseLinkFormData :=
  { actual_cof := "Fibre"
    detailed_cof := "core break at KM12"
    resolution := "spliced fiber"
    start_time := some 0
    end_time := some (330 * 60000) }

/-- The submit instant of the first sample submit. -/
def tRca : Int := 1000

/-- The row the first sample submit saves (insert branch, fresh id 1). -/
def sampleRcaSaved : RcaForm := CloseLink.payload sampleRcaFd sampleRcaEsc tRca 1 tRca

/-- The store after the first sample submit. -/
def sampleRcaOutDb : DB :=
  CloseLink.closeReports
    { sampleRcaDb with rca_forms := sampleRcaDb.rca_forms ++ [sampleRcaSaved] }
    sampleRcaEsc.id tRca

/-- A second RCA form for the same escalation (an edit of the first). -/
def sampleRcaFd2 : CloseLink.CloseLinkFormData :=
  { sampleRcaFd with detailed_cof := "core break at KM12, revised" }

/-- The row the second sample submit saves: the update branch keeps the
existing row's id and `created_at`. -/
def sampleRcaSaved2 : RcaForm := CloseLink.payload sampleRcaFd2 sampleRcaEsc 2000 1 tRca

/-- The store after the second sample submit. -/
def sampleRcaOutDb2 : DB :=
  CloseLink.closeReports
    { sampleRcaOutDb with rca_forms :=
        sampleRcaOutDb.rca_forms.map (fun r => if r.id = 1 then sampleRcaSaved2 else r) }
    sampleRcaEsc.id 2000

/-- Branch-level equation for `CloseLink.handleSubmit` on a loaded
escalation, used to reason by cases on the upsert. -/
theorem CloseLink.handleSubmit_some_eq (fd : CloseLink.CloseLinkFormData)
    (esc : Escalation) (db : DB) (now : Int) (freshId : Nat) :
    CloseLink.handleSubmit fd (some esc) db now freshId =
      (if fd.actual_cof = "" || jsTrim fd.detailed_cof = "" || jsTrim fd.resolution = "" then none
       else
        match CloseLink.maybeSingle db.rca_forms esc.id with
        | Except.error _ => none
        | Except.ok (some existingRca) =>
          some (CloseLink.closeReports
            { db with rca_forms := db.rca_forms.map (fun r =>
                if r.id = existingRca.id then
                  CloseLink.payload fd esc now existingRca.id existingRca.created_at
                else r) }
            esc.id now,
            CloseLink.payload fd esc now existingRca.id existingRca.created_at)
        | Except.ok none =>
          some (CloseLink.closeReports
            { db with rca_forms := db.rca_forms ++ [CloseLink.payload fd esc now freshId now] }
            esc.id now,
            CloseLink.payload fd esc now freshId now)) := rfl

/-- The saved row's id is the one handed to `payload`. -/
theorem CloseLink.payload_id (fd : CloseLink.CloseLinkFormData) (esc : Escalation)
    (now : Int) (i : Nat) (c : Int) : (CloseLink.payload fd esc now i c).id = i := rfl

/-- The saved row's `created_at` is the one handed to `payload`. -/
theorem CloseLink.payload_created_at (fd : CloseLink.CloseLinkFormData) (esc : Escalation)
    (now : Int) (i : Nat) (c : Int) : (CloseLink.payload fd esc now i c).created_at = c := rfl

/-- The saved row is keyed to the submitted escalation. -/
theorem CloseLink.payload_escalation_id (fd : CloseLink.CloseLinkFormData) (esc : Escalation)
    (now : Int) (i : Nat) (c : Int) :
    (CloseLink.payload fd esc now i c).escalation_id = some esc.id := rfl

/-- The saved row's `mttr_used` in terms of `computedMinutes`. -/
theorem CloseLink.payload_mttr_used (fd : CloseLink.CloseLinkFormData) (esc : Escalation)
    (now : Int) (i : Nat) (c : Int) :
    (CloseLink.payload fd esc now i c).mttr_used =
      Int.fdiv (CloseLink.computedMinutes fd) 60 := rfl

/-- The saved row's `mttr_status` in terms of `computedMinutes`. -/
theorem CloseLink.payload_mttr_status (fd : CloseLink.CloseLinkFormData) (esc : Escalation)
    (now : Int) (i : Nat) (c : Int) :
    (CloseLink.payload fd esc now i c).mttr_status =
      (if ((CloseLink.computedMinutes fd : Int) : ℚ) > esc.mttr_hours * 60
       then "Exceeded MTTR" else "Within MTTR") := rfl

/-- `closeReports` leaves the RCA table unchanged. -/
theorem CloseLink.closeReports_rca_forms (db : DB) (escId : String) (now : Int) :
    (CloseLink.closeReports db escId now).rca_forms = db.rca_forms := rfl

/-- `closeReports` leaves the escalations table unchanged. -/
theorem CloseLink.closeReports_escalations (db : DB) (escId : String) (now : Int) :
    (CloseLink.closeReports db escId now).escalations = db.escalations := rfl

/-- C1: a successful RCA submit with a loaded escalation and parseable
start/end times saves a row with
`mttr_used = floor(max(0, minutesBetween(start, end)) / 60)` and
`mttr_status = "Exceeded MTTR"` exactly when the clamped minutes exceed
`mttr_hours * 60`, else `"Within MTTR"`. -/
theorem C1_rca_mttr (fd : CloseLink.CloseLinkFormData) (esc : Escalation)
    (db db1 : DB) (saved : RcaForm) (now : Int) (freshId : Nat) (s e : Int)
    (hs : fd.start_time = some s) (he : fd.end_time = some e)
    (hres : CloseLink.handleSubmit fd (some esc) db now freshId = some (db1, saved)) :
    saved.mttr_used = Int.fdiv (max 0 (Int.tdiv (e - s) 60000)) 60 ∧
    saved.mttr_status =
      (if ((max 0 (Int.tdiv (e - s) 60000) : Int) : ℚ) > esc.mttr_hours * 60
       then "Exceeded MTTR" else "Within MTTR") := by
  have hm : CloseLink.computedMinutes fd = max 0 (Int.tdiv (e - s) 60000) := by
    rw [CloseLink.computedMinutes, hs, he]
    rfl
  rw [CloseLink.handleSubmit_some_eq] at hres
  split at hres
  · exact absurd hres (by simp)
  · split at hres
    · exact absurd hres (by simp)
    · simp only [Option.some.injEq, Prod.mk.injEq] at hres
      obtain ⟨hdb, rfl⟩ := hres
      exact ⟨by rw [CloseLink.payload_mttr_used, hm],
             by rw [CloseLink.payload_mttr_status, hm]⟩
    · simp only [Option.some.injEq, Prod.mk.injEq] at hres
      obtain ⟨hdb, rfl⟩ := hres
      exact ⟨by rw [CloseLink.payload_mttr_used, hm],
             by rw [CloseLink.payload_mttr_status, hm]⟩

set_option maxHeartbeats 2000000 in
/-- Witness for C1, matching the spec scenario: window 00:00 → 05:30 with a
3-hour budget yields `mttr_used = 5` and `"Exceeded MTTR"`. -/
theorem C1_rca_mttr_witness :
    sampleRcaSaved.mttr_used = 5 ∧ sampleRcaSaved.mttr_status = "Exceeded MTTR" := by
  have h := C1_rca_mttr sampleRcaFd sampleRcaEsc sampleRcaDb sampleRcaOutDb sampleRcaSaved
    tRca 1 0 (330 * 60000) rfl rfl (by rfl)
  exact ⟨h.1.trans (by with_unfolding_all decide), h.2.trans (by with_unfolding_all decide)⟩

/-- C3: when no RCA row exists for the escalation, a first submit inserts
exactly one; a second submit takes the update branch, so the count stays
one, the table does not grow, and the saved row keeps the first row's id. -/
theorem C3_rca_upsert_idempotent (fd fd2 : CloseLink.CloseLinkFormData)
    (esc : Escalation) (db db1 db2 : DB) (r1 r2 : RcaForm)
    (now1 now2 : Int) (id1 id2 : Nat)
    (h0 : rcaCount db esc.id = 0)
    (hfresh : ∀ r ∈ db.rca_forms, r.id ≠ id1)
    (h1 : CloseLink.handleSubmit fd (some esc) db now1 id1 = some (db1, r1))
    (h2 : CloseLink.handleSubmit fd2 (some esc) db1 now2 id2 = some (db2, r2)) :
    rcaCount db1 esc.id = 1 ∧ rcaCount db2 esc.id = 1 ∧
    db2.rca_forms.length = db1.rca_forms.length ∧ r2.id = r1.id := by
  rw [rcaCount, List.length_eq_zero] at h0
  have hms1 : CloseLink.maybeSingle db.rca_forms esc.id = Except.ok none := by
    rw [CloseLink.maybeSingle, h0]
  rw [CloseLink.handleSubmit_some_eq] at h1
  split at h1
  · exact absurd h1 (by simp)
  · rw [hms1] at h1
    simp only [Option.some.injEq, Prod.mk.injEq] at h1
    obtain ⟨hdb1, hr1⟩ := h1
    have hforms1 : db1.rca_forms = db.rca_forms ++ [CloseLink.payload fd esc now1 id1 now1] := by
      rw [← hdb1, CloseLink.closeReports_rca_forms]
    have hpos1 : ((CloseLink.payload fd esc now1 id1 now1).escalation_id == some esc.id) = true := by
      rw [CloseLink.payload_escalation_id]
      exact beq_self_eq_true _
    have hfilter1 : db1.rca_forms.filter (fun r => r.escalation_id == some esc.id) =
        [CloseLink.payload fd esc now1 id1 now1] := by
      rw [hforms1, List.filter_append, h0, List.nil_append]
      simp [List.filter_cons, hpos1]
    have hcnt1 : rcaCount db1 esc.id = 1 := by
      rw [rcaCount, hfilter1, List.length_singleton]
    refine ⟨hcnt1, ?_⟩
    have hms2 : CloseLink.maybeSingle db1.rca_forms esc.id =
        Except.ok (some (CloseLink.payload fd esc now1 id1 now1)) := by
      rw [CloseLink.maybeSingle, hfilter1]
    rw [CloseLink.handleSubmit_some_eq] at h2
    split at h2
    · exact absurd h2 (by simp)
    · rw [hms2] at h2
      simp only [Option.some.injEq, Prod.mk.injEq, CloseLink.payload_id,
        CloseLink.payload_created_at] at h2
      obtain ⟨hdb2, hr2⟩ := h2
      have hforms2 : db2.rca_forms = db.rca_forms ++ [CloseLink.payload fd2 esc now2 id1 now1] := by
        rw [← hdb2, CloseLink.closeReports_rca_forms]
        show (db1.rca_forms.map (fun r =>
          if r.id = id1 then CloseLink.payload fd2 esc now2 id1 now1 else r)) = _
        rw [hforms1, List.map_append]
        have hid : db.rca_forms.map (fun r =>
            if r.id = id1 then CloseLink.payload fd2 esc now2 id1 now1 else r) =
            db.rca_forms := by
          rw [List.map_congr_left (g := id) ?_, List.map_id]
          intro r hr
          simp only [id]
          rw [if_neg (hfresh r hr)]
        rw [hid]
        simp [CloseLink.payload_id]
      have hpos2 : ((CloseLink.payload fd2 esc now2 id1 now1).escalation_id == some esc.id) = true := by
        rw [CloseLink.payload_escalation_id]
        exact beq_self_eq_true _
      refine ⟨?_, ?_, ?_⟩
      · rw [rcaCount, hforms2, List.filter_append, h0, List.nil_append]
        simp [List.filter_cons, hpos2]
      · rw [hforms2, hforms1, List.length_append, List.length_append]
        simp
      · rw [← hr2, ← hr1, CloseLink.payload_id, CloseLink.payload_id]

set_option maxHeartbeats 2000000 in
/-- Witness for C3: submitting the sample RCA and then an edited version
leaves exactly one row with the same id. -/
theorem C3_rca_upsert_idempotent_witness :
    rcaCount sampleRcaOutDb sampleRcaEsc.id = 1 ∧
    rcaCount sampleRcaOutDb2 sampleRcaEsc.id = 1 ∧
    sampleRcaOutDb2.rca_forms.length = sampleRcaOutDb.rca_forms.length ∧
    sampleRcaSaved2.id = sampleRcaSaved.id :=
  C3_rca_upsert_idempotent sampleRcaFd sampleRcaFd2 sampleRcaEsc sampleRcaDb
    sampleRcaOutDb sampleRcaOutDb2 sampleRcaSaved sampleRcaSaved2 tRca 2000 1 2
    (by rfl) (by simp [sampleRcaDb]) (by rfl) (by rfl)

/-- C4: a successful RCA submit closes every report of the escalation
(`status = "closed"`, fresh `updated_at`), leaves all other reports alone,
and does not touch the `escalations` table at all — in particular the
escalation's own `status` keeps its previous value. -/
theorem C4_rca_closes_reports (fd : CloseLink.CloseLinkFormData) (esc : Escalation)
    (db db1 : DB) (saved : RcaForm) (now : Int) (freshId : Nat)
    (hres : CloseLink.handleSubmit fd (some esc) db now freshId = some (db1, saved)) :
    db1.escalations = db.escalations ∧
    db1.reports = db.reports.map (fun r =>
      if r.escalation_id == some esc.id then
        { r with status := "closed", updated_at := now } else r) := by
  rw [CloseLink.handleSubmit_some_eq] at hres
  split at hres
  · exact absurd hres (by simp)
  · split at hres
    · exact absurd hres (by simp)
    · simp only [Option.some.injEq, Prod.mk.injEq] at hres
      rw [← hres.1]
      exact ⟨rfl, rfl⟩
    · simp only [Option.some.injEq, Prod.mk.injEq] at hres
      rw [← hres.1]
      exact ⟨rfl, rfl⟩

set_option maxHeartbeats 2000000 in
/-- Witness for C4: after the sample submit the escalation list is
untouched (status still `"resolved"`) and the report under the escalation
is closed. -/
theorem C4_rca_closes_reports_witness :
    sampleRcaOutDb.escalations = sampleRcaDb.escalations ∧
    sampleRcaOutDb.reports = [{ sampleReport with status := "closed", updated_at := tRca }] := by
  have h := C4_rca_closes_reports sampleRcaFd sampleRcaEsc sampleRcaDb sampleRcaOutDb
    sampleRcaSaved tRca 1 (by rfl)
  exact ⟨h.1, h.2.trans (by with_unfolding_all decide)⟩

/-! ## Claims about report creation and resolution -/

/-- Membership is preserved by one insertion step of the sort. -/
theorem CreateReport.mem_insertByCreatedDesc (e x : Escalation) :
    ∀ l : List Escalation, (x ∈ CreateReport.insertByCreatedDesc e l ↔ x = e ∨ x ∈ l)
  | [] => by simp [CreateReport.insertByCreatedDesc]
  | y :: ys => by
    rw [CreateReport.insertByCreatedDesc]
    split
    · simp [List.mem_cons]
    · rw [List.mem_cons, CreateReport.mem_insertByCreatedDesc e x ys, List.mem_cons]
      tauto

/-- Sorting by `created_at` keeps exactly the same rows. -/
theorem CreateReport.mem_sortByCreatedDesc (x : Escalation) (l : List Escalation) :
    x ∈ CreateReport.sortByCreatedDesc l ↔ x ∈ l := by
  induction l with
  | nil => simp [CreateReport.sortByCreatedDesc]
  | cons y ys ih =>
    show x ∈ CreateReport.insertByCreatedDesc y (CreateReport.sortByCreatedDesc ys) ↔ _
    rw [CreateReport.mem_insertByCreatedDesc, ih, List.mem_cons]

/-- C5: the candidate list is exactly the `has_report = false` escalations,
and a successful submit appends exactly one report row — carrying
`status = "in_progress"` and the three required text fields, which the
validation forces to be non-blank — and flips the parent escalation to
`has_report = true`, `status = "in_progress"`, leaving other escalations
unchanged. -/
theorem C5_create_report (db db1 : DB) (fd : CreateReport.ReportFormData)
    (esc : Escalation) (urls : List String) (pid : Option String) (now : Int) (fid : Nat)
    (hres : CreateReport.handleSubmitReport fd esc urls pid db now fid = some db1) :
    ((CreateReport.fetchEscalations db).all (fun e => e.has_report == false)) = true ∧
    jsTrim fd.issue_description ≠ "" ∧ jsTrim fd.reported_by ≠ "" ∧
      jsTrim fd.contact_info ≠ "" ∧
    db1.reports = db.reports ++ [CreateReport.reportPayload fd esc urls pid now fid] ∧
    (CreateReport.reportPayload fd esc urls pid now fid).status = "in_progress" ∧
    (CreateReport.reportPayload fd esc urls pid now fid).issue_description =
      fd.issue_description ∧
    (CreateReport.reportPayload fd esc urls pid now fid).reported_by = fd.reported_by ∧
    (CreateReport.reportPayload fd esc urls pid now fid).contact_info = fd.contact_info ∧
    db1.escalations = db.escalations.map (fun e =>
      if e.id = esc.id then { e with has_report := true, status := "in_progress" } else e) := by
  have hall : ((CreateReport.fetchEscalations db).all (fun e => e.has_report == false)) = true := by
    apply List.all_eq_true.mpr
    intro e he
    rw [CreateReport.fetchEscalations, CreateReport.mem_sortByCreatedDesc] at he
    exact (List.mem_filter.mp he).2
  unfold CreateReport.handleSubmitReport at hres
  split at hres
  · exact absurd hres (by simp)
  · rename_i hval
    simp only [Bool.or_eq_true, decide_eq_true_eq, not_or] at hval
    simp only [Option.some.injEq] at hres
    obtain rfl := hres
    exact ⟨hall, hval.1.1, hval.1.2, hval.2, rfl, rfl, rfl, rfl, rfl, rfl⟩

/-- The mtn escalation of the creation scenario. -/
def samplePendingEsc : Escalation :=
  { id := "esc-10"
    provider := "mtn"
    list_of_segment := some "SEG-1"
    link_id := some "SEG-1"
    ticket_id := "TCK-MTN001"
    mttr_hours := 3
    status := "pending"
    has_report := false
    created_by := some "fib-1"
    created_at := 0
    updated_at := 0 }

/-- The store before the report creation. -/
def sampleCreateDb : DB := { escalations := [samplePendingEsc] }

/-- The report creation form of the scenario. -/
def sampleReportFd : CreateReport.ReportFormData :=
  { issue_description := "fiber cut", reported_by := "Staff A", contact_info := "0800-001" }

/-- The store after the report creation. -/
def sampleCreateOutDb : DB :=
  { sampleCreateDb with
    reports := sampleCreateDb.reports ++
      [CreateReport.reportPayload sampleReportFd samplePendingEsc [] (some "staff-1") 500 11]
    escalations := sampleCreateDb.escalations.map (fun e =>
      if e.id = samplePendingEsc.id then
        { e with has_report := true, status := "in_progress" } else e) }

/-- Witness for C5, matching the spec scenario: after creating the report
the escalation has `has_report = true`, `status = "in_progress"`, and the
single report row has `status = "in_progress"`. -/
theorem C5_create_report_witness :
    ((CreateReport.fetchEscalations sampleCreateDb).all (fun e => e.has_report == false)) = true ∧
    sampleCreateOutDb.reports =
      [CreateReport.reportPayload sampleReportFd samplePendingEsc [] (some "staff-1") 500 11] ∧
    (CreateReport.reportPayload sampleReportFd samplePendingEsc [] (some "staff-1") 500 11).status
      = "in_progress" ∧
    sampleCreateOutDb.escalations =
      [{ samplePendingEsc with has_report := true, status := "in_progress" }] := by
  obtain ⟨hall, _, _, _, hrep, hstat, _, _, _, hesc⟩ :=
    C5_create_report sampleCreateDb sampleCreateOutDb sampleReportFd samplePendingEsc
      [] (some "staff-1") 500 11 (by rfl)
  exact ⟨hall, hrep.trans (by with_unfolding_all decide), hstat,
    hesc.trans (by with_unfolding_all decide)⟩

/-- The uploaded-URL list the resolve handler computes. -/
def ResolvedPage.resolvedUrls (rd : ResolvedPage.ResolutionData) (report : Report)
    (escJoined : Option Escalation) (now : Int) : List String :=
  ResolvedPage.uploadImagesToSupabase now rd.selectedImages
    (jsOrElse (escJoined.bind (fun e => e.link_id)) (toString report.id))

/-- C6: a successful resolve marks the report resolved (with the notes and
photo list), marks the escalation keyed by `report.escalation_id` resolved
with `cof`/`pof` mirrored onto it, and appends exactly one notification-log
row whose recipient is the joined escalation's creator. -/
theorem C6_resolve_report (rd : ResolvedPage.ResolutionData) (report : Report)
    (esc : Escalation) (db db1 : DB) (now : Int) (eid : String)
    (heid : report.escalation_id = some eid)
    (hres : ResolvedPage.handleResolveReport rd report (some esc) db now = some db1) :
    db1.reports = db.reports.map (fun r =>
      if r.id = report.id then
        { r with status := "resolved"
                 resolution_notes := some rd.resolution_notes
                 resolution_photos := some (ResolvedPage.resolvedUrls rd report (some esc) now)
                 updated_at := now }
      else r) ∧
    db1.escalations = db.escalations.map (fun e =>
      if e.id = eid then
        { e with status := "resolved"
                 cof := some rd.cof
                 pof := some rd.pof
                 updated_at := now }
      else e) ∧
    db1.notification_log = db.notification_log ++
      [ResolvedPage.notificationOf rd report (some esc)
        (ResolvedPage.resolvedUrls rd report (some esc) now) now] ∧
    (ResolvedPage.notificationOf rd report (some esc)
      (ResolvedPage.resolvedUrls rd report (some esc) now) now).recipient_id =
      esc.created_by := by
  unfold ResolvedPage.handleResolveReport at hres
  split at hres
  · exact absurd hres (by simp)
  · split at hres
    · exact absurd hres (by simp)
    · simp only [Option.some.injEq] at hres
      obtain rfl := hres
      refine ⟨rfl, ?_, rfl, rfl⟩
      rw [heid]

/-- The in-progress escalation of the resolution scenario. -/
def sampleResEsc : Escalation :=
  { id := "esc-20"
    provider := "glo"
    site_a_id := some "S1"
    site_b_id := some "S2"
    link_id := some "S1-S2"
    ticket_id := "TCK-GLO001"
    mttr_hours := 4
    status := "in_progress"
    has_report := true
    created_by := some "user-9"
    created_at := 0
    updated_at := 0 }

/-- The in-progress report under `sampleResEsc`. -/
def sampleResReport : Report :=
  { id := 21
    escalation_id := some "esc-20"
    issue_description := "loss of signal"
    reported_by := "Staff B"
    contact_info := "0800-002"
    status := "in_progress"
    created_at := 0
    updated_at := 0 }

/-- The resolution drawer input of the scenario. -/
def sampleResData : ResolvedPage.ResolutionData :=
  { resolution_notes := "spliced fiber"
    cof := "Core Break"
    pof := "KM12"
    selectedImages := ["fix.jpg"] }

/-- The store before the resolve. -/
def sampleResDb : DB := { escalations := [sampleResEsc], reports := [sampleResReport] }

/-- The resolve instant. -/
def tRes : Int := 700

/-- The store after the resolve. -/
def sampleResOutDb : DB :=
  { sampleResDb with
    reports := sampleResDb.reports.map (fun r =>
      if r.id = sampleResReport.id then
        { r with status := "resolved"
                 resolution_notes := some sampleResData.resolution_notes
                 resolution_photos := some (ResolvedPage.resolvedUrls sampleResData
                   sampleResReport (some sampleResEsc) tRes)
                 updated_at := tRes }
      else r)
    escalations := sampleResDb.escalations.map (fun e =>
      if e.id = "esc-20" then
        { e with status := "resolved"
                 cof := some sampleResData.cof
                 pof := some sampleResData.pof
                 updated_at := tRes }
      else e)
    notification_log := sampleResDb.notification_log ++
      [ResolvedPage.notificationOf sampleResData sampleResReport (some sampleResEsc)
        (ResolvedPage.resolvedUrls sampleResData sampleResReport (some sampleResEsc) tRes) tRes] }

/-- Witness for C6, matching the spec scenario: resolving with
`resolution_notes = "spliced fiber"`, `cof = "Core Break"`, `pof = "KM12"`
gives a resolved report, a resolved escalation with `cof` mirrored, and one
notification-log row addressed to the escalation's creator. -/
theorem C6_resolve_report_witness :
    sampleResOutDb.reports =
      [{ sampleResReport with
          status := "resolved"
          resolution_notes := some "spliced fiber"
          resolution_photos := some ["report_upload/resolved/S1-S2/700_fix.jpg"]
          updated_at := 700 }] ∧
    sampleResOutDb.escalations =
      [{ sampleResEsc with
          status := "resolved"
          cof := some "Core Break"
          pof := some "KM12"
          updated_at := 700 }] ∧
    sampleResOutDb.notification_log.length = 1 ∧
    (ResolvedPage.notificationOf sampleResData sampleResReport (some sampleResEsc)
      (ResolvedPage.resolvedUrls sampleResData sampleResReport (some sampleResEsc) tRes)
      tRes).recipient_id = some "user-9" := by
  obtain ⟨hrep, hesc, hlog, hrecip⟩ := C6_resolve_report sampleResData sampleResReport
    sampleResEsc sampleResDb sampleResOutDb tRes "esc-20" rfl (by rfl)
  refine ⟨hrep.trans (by with_unfolding_all decide),
    hesc.trans (by with_unfolding_all decide), ?_,
    hrecip.trans (by with_unfolding_all decide)⟩
  rw [hlog]
  rfl

/-! ## Claims about escalation creation -/

/-- Whatever branch `generateIds` takes, the ticket part is
`ticketIdOf digits`. -/
theorem EscalationForm.generateIds_ticket (provider : String) (a b : Option EscalationForm.Site)
    (digits : List Char) (l t : String)
    (h : EscalationForm.generateIds provider a b digits = some (l, t)) :
    t = EscalationForm.ticketIdOf digits := by
  unfold EscalationForm.generateIds at h
  split at h
  · split at h
    · exact Option.noConfusion h
    · simp only [Option.some.injEq, Prod.mk.injEq] at h
      exact h.2.symm
  · split at h
    · simp only [Option.some.injEq, Prod.mk.injEq] at h
      exact h.2.symm
    · exact Option.noConfusion h

/-- Characterization of a successful escalation submit: the validations
passed, `generateIds` produced the link/ticket pair, the store-side insert
accepted the payload, and exactly one new row — `status = "pending"`,
`has_report = false`, a fresh primary key, and an MTTR that passed both the
client check and the schema check — was appended. -/
theorem EscalationForm.handleSubmit_ok_eq (fs : EscalationForm.EscFormState)
    (digits : List Char) (newId : String) (now : Int) (db db1 : DB) (row : Escalation)
    (h : EscalationForm.handleSubmit fs digits newId now db = .ok db1 row) :
    db1.escalations = db.escalations ++ [row] ∧
    row.id = newId ∧
    (db.escalations.any (fun e => e.id = newId)) = false ∧
    row.status = "pending" ∧ row.has_report = false ∧
    (∃ q : ℚ, fs.mttrHours.parsed = some q ∧ ¬(q < 0.1) ∧ row.mttr_hours = q) ∧
    (∃ linkId, EscalationForm.generateIds fs.provider fs.siteA fs.siteB digits =
        some (linkId, row.ticket_id) ∧
      row.link_id = (if fs.provider = "mtn" then jsOrNull linkId else some linkId)) := by
  unfold EscalationForm.handleSubmit at h
  dsimp only at h
  split at h
  · exact EscalationForm.SubmitOutcome.noConfusion h
  · split at h
    · exact EscalationForm.SubmitOutcome.noConfusion h
    · split at h
      · exact EscalationForm.SubmitOutcome.noConfusion h
      · split at h
        · exact EscalationForm.SubmitOutcome.noConfusion h
        · split at h
          · exact EscalationForm.SubmitOutcome.noConfusion h
          · rename_i linkId ticketId hgen
            split at h
            · exact EscalationForm.SubmitOutcome.noConfusion h
            · rename_i db1x rowx hins
              obtain ⟨hdb1, hrow⟩ : db1x = db1 ∧ rowx = row := by
                cases h
                exact ⟨rfl, rfl⟩
              subst hdb1
              subst hrow
              unfold EscalationForm.dbInsertEscalation at hins
              split at hins
              · exact Option.noConfusion hins
              · rename_i hpk
                split at hins
                · exact Option.noConfusion hins
                · rename_i q hq
                  split at hins
                  · exact Option.noConfusion hins
                  · rename_i hlt
                    simp only [Option.some.injEq, Prod.mk.injEq] at hins
                    obtain ⟨hdb, hrw⟩ := hins
                    subst hdb
                    subst hrw
                    exact ⟨rfl, rfl, by simpa using hpk, rfl, rfl,
                      ⟨q, hq, hlt, rfl⟩, ⟨linkId, hgen, rfl⟩⟩

/-- C8: escalation creation rejects — with an early return, before
`generateIds` or any insert — an MTTR that parses below 0.1, a missing
required site/segment selection or description, and equal site keys for a
non-mtn provider; and every row ever stored satisfies
`mttr_hours ≥ 0.1` (the successful insert appends a row that passed both
the client check and the schema `CHECK`). -/
theorem C8_escalation_validation (fs : EscalationForm.EscFormState) (digits : List Char)
    (newId : String) (now : Int) (db : DB) :
    (∀ q : ℚ, fs.mttrHours.parsed = some q → q < 0.1 →
      EscalationForm.handleSubmit fs digits newId now db =
        EscalationForm.SubmitOutcome.validationError) ∧
    ((fs.provider = "mtn" ∧ fs.siteA = none) ∨
     (fs.provider ≠ "mtn" ∧ (fs.siteA = none ∨ fs.siteB = none)) ∨
     fs.description = "" →
      EscalationForm.handleSubmit fs digits newId now db =
        EscalationForm.SubmitOutcome.validationError) ∧
    (fs.provider ≠ "mtn" ∧ EscalationForm.siteKey fs.siteA = EscalationForm.siteKey fs.siteB →
      EscalationForm.handleSubmit fs digits newId now db =
        EscalationForm.SubmitOutcome.validationError) ∧
    (∀ db1 row, EscalationForm.handleSubmit fs digits newId now db =
        EscalationForm.SubmitOutcome.ok db1 row →
      (0.1 : ℚ) ≤ row.mttr_hours ∧
      (db.escalations.all (fun e => decide ((0.1 : ℚ) ≤ e.mttr_hours)) = true →
        db1.escalations.all (fun e => decide ((0.1 : ℚ) ≤ e.mttr_hours)) = true)) := by
  refine ⟨?_, ?_, ?_, ?_⟩
  · intro q hq hlt
    have hc3 : (match fs.mttrHours.parsed with
                | some q => decide (q < 0.1)
                | none => false) = true := by
      rw [hq]
      simpa using hlt
    unfold EscalationForm.handleSubmit
    dsimp only
    split
    · rfl
    · split
      · rfl
      · rfl
  · intro hmiss
    have hc1 : ((decide (fs.provider = "mtn") && fs.siteA.isNone) ||
        (!(decide (fs.provider = "mtn")) && (fs.siteA.isNone || fs.siteB.isNone)) ||
        fs.mttrHours.isEmpty || decide (fs.description = "")) = true := by
      rcases hmiss with ⟨hp, ha⟩ | ⟨hp, hab⟩ | hd
      · simp [hp, ha]
      · rcases hab with ha | hb
        · simp [hp, ha]
        · simp [hp, hb]
      · simp [hd]
    unfold EscalationForm.handleSubmit
    dsimp only
    rw [if_pos hc1]
  · rintro ⟨hp, hkey⟩
    have hc4 : (!(decide (fs.provider = "mtn")) &&
        (EscalationForm.siteKey fs.siteA == EscalationForm.siteKey fs.siteB)) = true := by
      simp [hp, hkey]
    unfold EscalationForm.handleSubmit
    dsimp only
    split
    · rfl
    · split
      · rfl
      · split
        · rfl
        · rfl
  · intro db1 row h
    obtain ⟨hdb1, _, _, _, _, ⟨q, _, hlt, hmq⟩, _⟩ :=
      EscalationForm.handleSubmit_ok_eq fs digits newId now db db1 row h
    have hge : (0.1 : ℚ) ≤ row.mttr_hours := by
      rw [hmq]
      exact le_of_not_lt hlt
    refine ⟨hge, ?_⟩
    intro hall
    rw [hdb1, List.all_append, hall, Bool.true_and, List.all_cons, List.all_nil,
      Bool.and_true]
    exact decide_eq_true hge

/-- An escalation form that parses below the MTTR floor. -/
def sampleLowMttrForm : EscalationForm.EscFormState :=
  { provider := "mtn"
    siteA := some { site_id := some "SEG-1-ID", list_of_segment := some "SEG-1" }
    mttrHours := { isEmpty := false, parsed := some 0.05 }
    description := "link down"
    profileId := "fib-1" }

/-- The same form with a valid MTTR. -/
def sampleOkMttrForm : EscalationForm.EscFormState :=
  { sampleLowMttrForm with mttrHours := { isEmpty := false, parsed := some 3 } }

/-- An airtel form that selects the same site twice. -/
def sampleEqualSitesForm : EscalationForm.EscFormState :=
  { provider := "airtel"
    siteA := some { id := some "7", site_name := some "S1" }
    siteB := some { id := some "7", site_name := some "S1" }
    mttrHours := { isEmpty := false, parsed := some 3 }
    description := "link down"
    profileId := "fib-1" }

/-- The row a successful mtn submit of `sampleOkMttrForm` (random digits
`"abcdef"`) stores. -/
def c8OkRow : Escalation :=
  { id := "esc-n1"
    provider := "mtn"
    list_of_segment := some "SEG-1"
    link_id := some "SEG-1"
    ticket_id := "TCK-ABCDEF"
    mttr_hours := 3
    status := "pending"
    has_report := false
    description := some "link down"
    created_by := some "fib-1"
    created_at := 100
    updated_at := 100 }

/-- The store after that successful submit (starting from an empty store). -/
def c8OkDb : DB := { escalations := [c8OkRow] }

/-- Witness for C8: the sub-0.1 form, the site-less form, and the
equal-sites form are all rejected with no write, and a successful submit
stores a row with `mttr_hours ≥ 0.1`. -/
theorem C8_escalation_validation_witness :
    EscalationForm.handleSubmit sampleLowMttrForm "abcdef".data
      "esc-n1" 100 {} = EscalationForm.SubmitOutcome.validationError ∧
    EscalationForm.handleSubmit { sampleOkMttrForm with siteA := none }
      "abcdef".data "esc-n1" 100 {} =
      EscalationForm.SubmitOutcome.validationError ∧
    EscalationForm.handleSubmit sampleEqualSitesForm
      "abcdef".data "esc-n1" 100 {} =
      EscalationForm.SubmitOutcome.validationError ∧
    (0.1 : ℚ) ≤ c8OkRow.mttr_hours := by
  refine ⟨?_, ?_, ?_, ?_⟩
  · exact (C8_escalation_validation sampleLowMttrForm _ "esc-n1" 100 {}).1 0.05 rfl
      (by with_unfolding_all decide)
  · exact (C8_escalation_validation { sampleOkMttrForm with siteA := none } _ "esc-n1" 100
      {}).2.1 (Or.inl ⟨rfl, rfl⟩)
  · exact (C8_escalation_validation sampleEqualSitesForm _ "esc-n1" 100 {}).2.2.1
      ⟨by with_unfolding_all decide, by with_unfolding_all decide⟩
  · exact ((C8_escalation_validation sampleOkMttrForm "abcdef".data "esc-n1" 100 {}).2.2.2
      c8OkDb c8OkRow (by with_unfolding_all rfl)).1

/-- An uppercase letter or a digit (the claim's "uppercase alphanumeric"). -/
def isUpperAlnum (c : Char) : Bool := c.isUpper || c.isDigit

/-- The characters `Number.prototype.toString(36)` can emit as fractional
digits. -/
def base36Chars : List Char := "0123456789abcdefghijklmnopqrstuvwxyz".data

/-- The ticket format the claim asserts, written from the spec's words:
the fixed prefix `TCK-` followed by exactly 6 uppercase alphanumeric
characters. -/
def specTicketFormat (t : String) : Bool :=
  (t.data.take 4 == "TCK-".data) && ((t.data.drop 4).length == 6)
    && (t.data.drop 4).all isUpperAlnum

/-- The escalation row stored by a successful mtn submit whose random draw
prints `"0.i"` (`Math.random() = 0.5`): the ticket is `TCK-I`. -/
def c10ShortRow : Escalation :=
  { c8OkRow with id := "esc-n2", ticket_id := "TCK-I" }

/-- C10 (counterexample): with `Math.random() = 0.5` the printed expansion
is `"0.i"`, `substring(2, 8)` keeps the single digit `i`, and the submit
succeeds storing `ticket_id = "TCK-I"` — one uppercase character after the
prefix, not six. The `link_id` part of the claim holds at this input. -/
theorem C10_ticket_not_exactly6 :
    EscalationForm.handleSubmit sampleOkMttrForm [Char.ofNat 105] "esc-n2" 100 {} =
      EscalationForm.SubmitOutcome.ok { escalations := [c10ShortRow] } c10ShortRow ∧
    c10ShortRow.ticket_id = "TCK-I" ∧
    specTicketFormat c10ShortRow.ticket_id = false ∧
    c10ShortRow.link_id = some "SEG-1" := by
  refine ⟨by with_unfolding_all rfl, rfl, by with_unfolding_all decide, rfl⟩

/-- Every base-36 digit uppercases to an uppercase alphanumeric. -/
theorem base36_toUpper_upperAlnum :
    base36Chars.all (fun c => isUpperAlnum c.toUpper) = true := by decide

/-- C10 (amended): every successfully created escalation has `link_id`
equal to the selected segment (mtn, when the selected segment name is
non-empty) or to the two site names joined by a hyphen (others), and
`ticket_id` is the fixed prefix `TCK-` followed by **at most** 6 uppercase
alphanumeric characters — exactly 6 whenever the random draw's base-36
expansion has at least 6 fractional digits. -/
theorem C10_link_and_ticket (fs : EscalationForm.EscFormState) (digits : List Char)
    (newId : String) (now : Int) (db db1 : DB) (row : Escalation)
    (hdig : digits.all (fun c => base36Chars.contains c) = true)
    (hres : EscalationForm.handleSubmit fs digits newId now db =
      EscalationForm.SubmitOutcome.ok db1 row) :
    row.ticket_id.data.take 4 = "TCK-".data ∧
    row.ticket_id.data.length ≤ 10 ∧
    (6 ≤ digits.length → row.ticket_id.data.length = 10) ∧
    (row.ticket_id.data.drop 4).all isUpperAlnum = true ∧
    (∀ a seg, fs.provider = "mtn" → fs.siteA = some a → a.list_of_segment = some seg →
      seg ≠ "" → row.link_id = some seg) ∧
    (∀ a b na nb, fs.provider ≠ "mtn" → fs.siteA = some a → fs.siteB = some b →
      a.site_name = some na → b.site_name = some nb →
      row.link_id = some (na ++ "-" ++ nb)) := by
  obtain ⟨_, _, _, _, _, _, ⟨linkId, hgen, hlink⟩⟩ :=
    EscalationForm.handleSubmit_ok_eq fs digits newId now db db1 row hres
  have htick := EscalationForm.generateIds_ticket fs.provider fs.siteA fs.siteB digits
    linkId row.ticket_id hgen
  have hdata : row.ticket_id.data = "TCK-".data ++ (digits.take 6).map Char.toUpper := by
    rw [htick, EscalationForm.ticketIdOf, String.data_append]
  have hlen4 : ("TCK-".data).length = 4 := rfl
  refine ⟨?_, ?_, ?_, ?_, ?_, ?_⟩
  · rw [hdata, ← hlen4, List.take_left]
  · rw [hdata, List.length_append, hlen4, List.length_map, List.length_take]
    omega
  · intro h6
    rw [hdata, List.length_append, hlen4, List.length_map, List.length_take]
    omega
  · rw [hdata, ← hlen4, List.drop_left]
    apply List.all_eq_true.mpr
    intro c hc
    obtain ⟨d, hd, rfl⟩ := List.mem_map.mp hc
    have hdd : d ∈ digits := List.take_subset 6 digits hd
    have hd36 : d ∈ base36Chars := by
      have := List.all_eq_true.mp hdig d hdd
      simpa using this
    exact List.all_eq_true.mp base36_toUpper_upperAlnum d hd36
  · intro a seg hp ha hseg hne
    rw [hlink, if_pos hp]
    unfold EscalationForm.generateIds at hgen
    rw [if_pos hp, ha] at hgen
    simp only [Option.some.injEq, Prod.mk.injEq] at hgen
    rw [← hgen.1, hseg]
    show jsOrNull seg = some seg
    rw [jsOrNull, if_neg hne]
  · intro a b na nb hp ha hb hna hnb
    rw [hlink, if_neg hp]
    unfold EscalationForm.generateIds at hgen
    rw [if_neg hp, ha, hb] at hgen
    simp only [Option.some.injEq, Prod.mk.injEq] at hgen
    rw [← hgen.1, hna, hnb]
    rfl

/-- Witness for the amended C10: the mtn submit with random digits
`"abcdef"` yields `ticket_id = "TCK-ABCDEF"` (prefix + six uppercase
alphanumerics) and `link_id = "SEG-1"`. -/
theorem C10_link_and_ticket_witness :
    c8OkRow.ticket_id = "TCK-ABCDEF" ∧
    c8OkRow.ticket_id.data.take 4 = "TCK-".data ∧
    c8OkRow.ticket_id.data.length = 10 ∧
    (c8OkRow.ticket_id.data.drop 4).all isUpperAlnum = true ∧
    c8OkRow.link_id = some "SEG-1" := by
  obtain ⟨h1, _, h3, h4, h5, _⟩ :=
    C10_link_and_ticket sampleOkMttrForm "abcdef".data "esc-n1" 100 {} c8OkDb c8OkRow
      (by with_unfolding_all decide) (by with_unfolding_all rfl)
  exact ⟨rfl, h1, h3 (by decide), h4,
    h5 { site_id := some "SEG-1-ID", list_of_segment := some "SEG-1" } "SEG-1" rfl rfl rfl
      (by decide)⟩

/-! ## The `has_report` invariant across every operation (C9) -/

/-- The RCA submit never touches the escalations table. -/
theorem CloseLink.rcaSubmit_keeps_escalations (fd : CloseLink.CloseLinkFormData)
    (escalation : Option Escalation) (db db1 : DB) (saved : RcaForm)
    (now : Int) (freshId : Nat)
    (h : CloseLink.handleSubmit fd escalation db now freshId = some (db1, saved)) :
    db1.escalations = db.escalations := by
  cases escalation with
  | none =>
    unfold CloseLink.handleSubmit at h
    split at h
    · exact Option.noConfusion h
    · exact Option.noConfusion h
  | some esc =>
    rw [CloseLink.handleSubmit_some_eq] at h
    split at h
    · exact Option.noConfusion h
    · split at h
      · exact Option.noConfusion h
      · simp only [Option.some.injEq, Prod.mk.injEq] at h
        rw [← h.1]
        rfl
      · simp only [Option.some.injEq, Prod.mk.injEq] at h
        rw [← h.1]
        rfl

/-- The in-progress update never touches the escalations table. -/
theorem InProgress.etrUpdate_keeps_escalations (rid : Nat) (etr : String)
    (imgs : List String) (now : Int) (db : DB) :
    (InProgress.handleSubmit rid etr imgs now db).escalations = db.escalations := by
  unfold InProgress.handleSubmit
  split
  · rfl
  · split
    · rfl
    · rfl

/-- Rows surviving a map that keeps `id` and `has_report` trace back to an
original row with the same two fields. -/
theorem mem_map_preserving {f : Escalation → Escalation}
    (hfid : ∀ x, (f x).id = x.id) (hfr : ∀ x, (f x).has_report = x.has_report)
    {l : List Escalation} {x : Escalation} (hx : x ∈ l.map f) :
    ∃ y ∈ l, x.id = y.id ∧ x.has_report = y.has_report := by
  obtain ⟨y, hy, rfl⟩ := List.mem_map.mp hx
  exact ⟨y, hy, hfid y, hfr y⟩

/-- Every row after a resolve traces back to a row with the same `id` and
`has_report`. -/
theorem ResolvedPage.handleResolveReport_escalations (rd : ResolvedPage.ResolutionData)
    (report : Report) (escJ : Option Escalation) (db db1 : DB) (now : Int)
    (h : ResolvedPage.handleResolveReport rd report escJ db now = some db1) :
    ∀ x ∈ db1.escalations, ∃ y ∈ db.escalations, x.id = y.id ∧ x.has_report = y.has_report := by
  unfold ResolvedPage.handleResolveReport at h
  split at h
  · exact Option.noConfusion h
  · split at h
    · exact Option.noConfusion h
    · simp only [Option.some.injEq] at h
      obtain rfl := h
      intro x hx
      dsimp only at hx
      cases heid : report.escalation_id with
      | none =>
        rw [heid] at hx
        exact ⟨x, hx, rfl, rfl⟩
      | some eid =>
        rw [heid] at hx
        refine mem_map_preserving ?_ ?_ hx
        · intro z
          by_cases hz : z.id = eid <;> simp [hz]
        · intro z
          by_cases hz : z.id = eid <;> simp [hz]

/-- Every row after an MTTR edit traces back to a row with the same `id`
and `has_report`. -/
theorem EditEscalation.editSubmit_escalations_trace (escId : String)
    (mttr : EscalationForm.MttrInput) (now : Int) (db : DB) :
    ∀ x ∈ (EditEscalation.handleSubmit escId mttr now db).escalations,
      ∃ y ∈ db.escalations, x.id = y.id ∧ x.has_report = y.has_report := by
  intro x hx
  unfold EditEscalation.handleSubmit at hx
  split at hx
  · exact ⟨x, hx, rfl, rfl⟩
  · split at hx
    · exact ⟨x, hx, rfl, rfl⟩
    · split at hx
      · exact ⟨x, hx, rfl, rfl⟩
      · refine mem_map_preserving ?_ ?_ hx
        · intro z
          by_cases hz : z.id = escId <;> simp [hz]
        · intro z
          by_cases hz : z.id = escId <;> simp [hz]

/-- C9: across every operation of the system, an escalation's `has_report`
never goes back from `true` to `false`, and the only operation that turns
it from `false` to `true` is the report-creation submit against that very
escalation — so the flag flips at most once, exactly when a report is
attached. -/
theorem C9_has_report_monotone (op : Op) (db : DB)
    (hnodup : (db.escalations.map (fun e => e.id)).Nodup)
    (e e1 : Escalation) (he : e ∈ db.escalations)
    (he1 : e1 ∈ (step op db).escalations) (hid : e1.id = e.id) :
    (e.has_report = true → e1.has_report = true) ∧
    (e.has_report = false → e1.has_report = true → op.isCreateReportFor e.id = true) := by
  have hinj := List.inj_on_of_nodup_map hnodup
  have fromTrace : (∃ y ∈ db.escalations, e1.id = y.id ∧ e1.has_report = y.has_report) →
      (e.has_report = true → e1.has_report = true) ∧
      (e.has_report = false → ¬e1.has_report = true) := by
    rintro ⟨y, hy, hidy, hry⟩
    have hye : y = e := hinj hy he (hidy ▸ hid)
    subst hye
    constructor
    · intro ht
      rw [hry, ht]
    · intro hf ht
      rw [hry, hf] at ht
      exact Bool.noConfusion ht
  have unchanged : e1 ∈ db.escalations →
      (e.has_report = true → e1.has_report = true) ∧
      (e.has_report = false → e1.has_report = true → op.isCreateReportFor e.id = true) := by
    intro hmem
    have h := fromTrace ⟨e1, hmem, rfl, rfl⟩
    exact ⟨h.1, fun hf ht => (h.2 hf ht).elim⟩
  cases op with
  | createEscalation fs digits newId now =>
    simp only [step] at he1
    cases hout : EscalationForm.handleSubmit fs digits newId now db with
    | validationError =>
      rw [hout] at he1
      exact unchanged he1
    | insertFailed =>
      rw [hout] at he1
      exact unchanged he1
    | ok db1 row =>
      rw [hout] at he1
      obtain ⟨hdb1, hrid, hfresh, _, _, _, _⟩ :=
        EscalationForm.handleSubmit_ok_eq fs digits newId now db db1 row hout
      rw [hdb1, List.mem_append, List.mem_singleton] at he1
      rcases he1 with he1 | rfl
      · exact unchanged he1
      · exfalso
        have : db.escalations.any (fun x => x.id = newId) = true :=
          List.any_eq_true.mpr ⟨e, he, by rw [← hid, hrid]; exact decide_eq_true rfl⟩
        rw [this] at hfresh
        exact Bool.noConfusion hfresh
  | editEscalation escId mttr now =>
    simp only [step] at he1
    have h := fromTrace (EditEscalation.editSubmit_escalations_trace escId mttr now db e1 he1)
    exact ⟨h.1, fun hf ht => (h.2 hf ht).elim⟩
  | createReport fd esc urls pid now fid =>
    simp only [step] at he1
    cases hout : CreateReport.handleSubmitReport fd esc urls pid db now fid with
    | none =>
      rw [hout] at he1
      exact unchanged he1
    | some db1 =>
      rw [hout, Option.getD_some] at he1
      have hdb1 : db1.escalations = db.escalations.map (fun x =>
          if x.id = esc.id then { x with has_report := true, status := "in_progress" }
          else x) := by
        unfold CreateReport.handleSubmitReport at hout
        split at hout
        · exact Option.noConfusion hout
        · simp only [Option.some.injEq] at hout
          rw [← hout]
      rw [hdb1] at he1
      obtain ⟨y, hy, rfl⟩ := List.mem_map.mp he1
      have hyid : y.id = e.id := by
        by_cases hz : y.id = esc.id
        · rw [← hid]
          simp [hz]
        · rw [← hid]
          simp [hz]
      have hye : y = e := hinj hy he hyid
      subst hye
      by_cases hz : y.id = esc.id
      · constructor
        · intro _
          simp [hz]
        · intro _ _
          show (esc.id == y.id) = true
          rw [hz]
          exact beq_self_eq_true _
      · constructor
        · intro ht
          simpa [hz] using ht
        · intro hf ht
          rw [if_neg hz] at ht
          rw [hf] at ht
          exact Bool.noConfusion ht
  | inProgressUpdate rid etr imgs now =>
    simp only [step] at he1
    rw [InProgress.etrUpdate_keeps_escalations] at he1
    exact unchanged he1
  | resolveReport rd rep escJ now =>
    simp only [step] at he1
    cases hout : ResolvedPage.handleResolveReport rd rep escJ db now with
    | none =>
      rw [hout] at he1
      exact unchanged he1
    | some db1 =>
      rw [hout, Option.getD_some] at he1
      have h := fromTrace
        (ResolvedPage.handleResolveReport_escalations rd rep escJ db db1 now hout e1 he1)
      exact ⟨h.1, fun hf ht => (h.2 hf ht).elim⟩
  | submitRca fd esc now fid =>
    simp only [step] at he1
    cases hout : CloseLink.handleSubmit fd esc db now fid with
    | none =>
      rw [hout] at he1
      exact unchanged he1
    | some pr =>
      obtain ⟨db1, saved⟩ := pr
      rw [hout] at he1
      rw [CloseLink.rcaSubmit_keeps_escalations fd esc db db1 saved now fid hout] at he1
      exact unchanged he1
  | breachCheck now =>
    simp only [step] at he1
    exact unchanged he1
  | deleteEscalation escId =>
    simp only [step] at he1
    exact unchanged (List.mem_filter.mp he1).1

/-- Witness for C9: creating the sample report flips `has_report` on the
sample escalation, and C9 certifies the flip is attributable to that very
report-creation operation. -/
theorem C9_has_report_monotone_witness :
    (Op.createReport sampleReportFd samplePendingEsc [] (some "staff-1") 500 11).isCreateReportFor
      samplePendingEsc.id = true := by
  have h := C9_has_report_monotone
    (Op.createReport sampleReportFd samplePendingEsc [] (some "staff-1") 500 11)
    sampleCreateDb (by with_unfolding_all decide)
    samplePendingEsc { samplePendingEsc with has_report := true, status := "in_progress" }
    (by with_unfolding_all decide) (by with_unfolding_all decide) rfl
  exact h.2 rfl rfl

end PrecPearl
